import Mathlib

/-!
Shallow embedding of the DSCEngine Stylus contract (src/src/lib.rs) and the
parts of its pegged-token collaborator that the engine consumes.

Modelling conventions:
* `U256` values are `Nat`s; the deployed arithmetic domain is `[0, 2^256)`.
* Addresses are `Nat`s, with `0` standing for `Address::ZERO`.
* External collaborators (the ERC-20 collateral tokens, the price oracle, and
  the pegged token's ERC-20 internals, whose source file `erc20.rs` is not part
  of the given sources) are modelled as an `Env` of response functions; the
  engine only consumes `is_err()` of the token calls, so those are `Bool`s.
* Each operation returns an `Outcome`: normal return with a value, a returned
  `DSCEngineError`, or a fatal abort (a Rust panic).  Outcomes also carry the
  final storage state and the program-order trace of ledger writes, emitted
  events, external calls and health-factor checks.
-/

namespace DSC

/-- The size of the unsigned 256-bit integer domain. -/
def U256_MOD : Nat := 2 ^ 256

/-- The maximum representable `U256` value (`U256::MAX`). -/
def U256_MAX : Nat := U256_MOD - 1

/-- Modelled from the spec: checked unsigned addition.  The build profile that
fixes Rust's overflow behaviour (`Cargo.toml`) is not among the given sources;
the spec prescribes trapping unsigned arithmetic, so `+` aborts on overflow. -/
def uadd (a b : Nat) : Option Nat :=
  if a + b < U256_MOD then some (a + b) else none

/-- Modelled from the spec: checked unsigned subtraction; underflow traps
(spec §3: "unsigned-arithmetic-traps-on-underflow semantics"). -/
def usub (a b : Nat) : Option Nat :=
  if b ≤ a then some (a - b) else none

/-- Modelled from the spec: checked unsigned multiplication; overflow traps. -/
def umul (a b : Nat) : Option Nat :=
  if a * b < U256_MOD then some (a * b) else none

/-- Unsigned division; division by zero is a fatal error in Rust. -/
def udiv (a b : Nat) : Option Nat :=
  if b = 0 then none else some (a / b)

/-- The `DSCEngine` storage (`sol_storage!` block of src/src/lib.rs).
`price_feeds`, `collateral_deposited` and `dsc_minted` are total maps with
default value `0`, matching Solidity-style storage mappings. -/
structure State where
  additional_feed_precision : Nat
  precision : Nat
  liquidation_threshold : Nat
  liquidation_precision : Nat
  min_health_factor : Nat
  liquidation_bonus : Nat
  price_feeds : Nat → Nat
  collateral_deposited : Nat → Nat → Nat
  dsc_minted : Nat → Nat
  collateral_tokens : List Nat

/-- Write one cell of the `collateral_deposited` mapping. -/
def State.setCollateral (s : State) (user token amount : Nat) : State :=
  { s with collateral_deposited := fun u t =>
      if u = user then (if t = token then amount else s.collateral_deposited u t)
      else s.collateral_deposited u t }

/-- Write one cell of the `dsc_minted` mapping. -/
def State.setDebt (s : State) (user amount : Nat) : State :=
  { s with dsc_minted := fun u => if u = user then amount else s.dsc_minted u }

/-- The engine parameters as the constructor fixes them
(`constructor`, src/src/lib.rs lines 118-125); no other code writes them. -/
def State.stdParams (s : State) : Prop :=
  s.additional_feed_precision = 10 ^ 10 ∧ s.precision = 10 ^ 18 ∧
  s.liquidation_threshold = 50 ∧ s.liquidation_precision = 100 ∧
  s.min_health_factor = 10 ^ 18 ∧ s.liquidation_bonus = 10

instance (s : State) : Decidable s.stdParams := by
  unfold State.stdParams; infer_instance

/-- Responses of the external world as consumed by the engine: `msg::sender()`,
`contract::address()`, the oracle answer per feed address (`none` = the call
failed), and whether each external token call reports an error.  The pegged
token's ERC-20 bookkeeping lives in `erc20.rs`, which is not among the given
sources, so its `mint`/`transfer_from`/`burn` results are environment inputs
(the spec treats the pegged-token ledger as an external collaborator, §6). -/
structure Env where
  sender : Nat
  contractAddr : Nat
  oracle : Nat → Option Int
  transferFromFails : Nat → Nat → Nat → Nat → Bool
  transferFails : Nat → Nat → Nat → Bool
  dscMintFails : Nat → Nat → Bool
  dscTransferFromFails : Nat → Nat → Nat → Bool
  dscBurnFails : Nat → Bool

/-- Program-order observable steps: storage writes, emitted events, external
calls and health-factor checks. -/
inductive Event where
  | collWrite (user token newAmount : Nat)
  | debtWrite (user newAmount : Nat)
  | logDeposited (user token amount : Nat)
  | logRedeemed (redeemedFrom redeemedTo amount token : Nat)
  | erc20TransferFromCall (token src dst amount : Nat)
  | erc20TransferCall (token dst amount : Nat)
  | dscMintCall (dst amount : Nat)
  | dscTransferFromCall (src dst amount : Nat)
  | dscBurnCall (amount : Nat)
  | healthCheck (user : Nat)
  deriving DecidableEq, Repr

/-- The errors of `DSCEngineError` that the modelled operations can surface.
`DscError` stands for a wrapped `DecentralizedStableCoinError`. -/
inductive Err where
  | NeedsMoreThanZero
  | NotAllowedToken
  | TransferFailed
  | BreaksHealthFactor (hf : Nat)
  | MintFailed
  | HealthFactorOk
  | HealthFactorNotImproved
  | DscError
  deriving DecidableEq, Repr

/-- Result of running an operation: normal return, returned error, or fatal
abort (Rust panic).  All three carry the storage state at that point and the
program-order trace. -/
inductive Outcome (α : Type) where
  | ok (v : α) (s : State) (tr : List Event)
  | err (e : Err) (s : State) (tr : List Event)
  | fatal (msg : String) (s : State) (tr : List Event)

/-- Whether the outcome is a normal return. -/
def Outcome.isOk {α : Type} : Outcome α → Bool
  | .ok _ _ _ => true
  | _ => false

/-- Whether the outcome is a fatal abort (panic). -/
def Outcome.isFatal {α : Type} : Outcome α → Bool
  | .fatal _ _ _ => true
  | _ => false

/-- The returned error, if any. -/
def Outcome.errOf {α : Type} : Outcome α → Option Err
  | .err e _ _ => some e
  | _ => none

/-- The storage state the outcome carries. -/
def Outcome.stateOf {α : Type} : Outcome α → State
  | .ok _ s _ => s
  | .err _ s _ => s
  | .fatal _ s _ => s

/-- The trace the outcome carries. -/
def Outcome.traceOf {α : Type} : Outcome α → List Event
  | .ok _ _ tr => tr
  | .err _ _ tr => tr
  | .fatal _ _ tr => tr

/-- `get_usd_value` (src/src/lib.rs lines 466-481): query the feed registered
for `token`; a failed call or a negative answer yields zero; otherwise
`((price * additional_feed_precision) * amount) / precision`. -/
def get_usd_value (env : Env) (s : State) (token amount : Nat) : Option Nat :=
  match env.oracle (s.price_feeds token) with
  | none => some 0
  | some price =>
    if price < 0 then some 0
    else
      (umul price.toNat s.additional_feed_precision).bind fun a =>
      (umul a amount).bind fun b => udiv b s.precision

/-- `get_token_amount_from_usd` (src/src/lib.rs lines 428-444): inverse
conversion, `(usd_amount_in_wei * precision) / (price * additional_feed_precision)`;
a failed oracle call or negative answer yields zero. -/
def get_token_amount_from_usd (env : Env) (s : State) (token usdAmountInWei : Nat) :
    Option Nat :=
  match env.oracle (s.price_feeds token) with
  | none => some 0
  | some price =>
    if price < 0 then some 0
    else
      (umul usdAmountInWei s.precision).bind fun n =>
      (umul price.toNat s.additional_feed_precision).bind fun d => udiv n d

/-- Loop body of `get_account_collateral_value_in_usd`: accumulate
`total += get_usd_value(token, collateral_deposited[user][token])` over the
token list. -/
def accountCollateralValueAux (env : Env) (s : State) (user : Nat) :
    List Nat → Nat → Option Nat
  | [], acc => some acc
  | t :: ts, acc =>
    (get_usd_value env s t (s.collateral_deposited user t)).bind fun v =>
    (uadd acc v).bind fun acc' => accountCollateralValueAux env s user ts acc'

/-- `get_account_collateral_value_in_usd` (src/src/lib.rs lines 446-463). -/
def get_account_collateral_value_in_usd (env : Env) (s : State) (user : Nat) :
    Option Nat :=
  accountCollateralValueAux env s user s.collateral_tokens 0

/-- `_calculate_health_factor` (src/src/lib.rs lines 394-409): `U256::MAX` when
no debt, else `(collateral_value * liquidation_threshold / liquidation_precision)
* precision / total_dsc_minted`. -/
def _calculate_health_factor (s : State) (totalDscMinted collateralValueInUsd : Nat) :
    Option Nat :=
  if totalDscMinted = 0 then some U256_MAX
  else
    (umul collateralValueInUsd s.liquidation_threshold).bind fun a =>
    (udiv a s.liquidation_precision).bind fun adj =>
    (umul adj s.precision).bind fun b => udiv b totalDscMinted

/-- `_health_factor` (src/src/lib.rs lines 386-391), with `_get_account_info`
inlined: reads the user's debt and aggregated collateral value, then applies
`_calculate_health_factor`. -/
def _health_factor (env : Env) (s : State) (user : Nat) : Option Nat :=
  (get_account_collateral_value_in_usd env s user).bind fun cv =>
    _calculate_health_factor s (s.dsc_minted user) cv

/-- `get_health_factor` (src/src/lib.rs lines 516-519): public accessor for
`_health_factor`. -/
def get_health_factor (env : Env) (s : State) (user : Nat) : Option Nat :=
  _health_factor env s user

/-- `_revert_if_health_factor_is_broken` (src/src/lib.rs lines 373-383),
run at state `s` with the trace accumulated so far. -/
def _revert_if_health_factor_is_broken (env : Env) (s : State) (user : Nat)
    (tr : List Event) : Outcome Unit :=
  match _health_factor env s user with
  | none => .fatal "arithmetic overflow" s (tr ++ [Event.healthCheck user])
  | some hf =>
    if hf < s.min_health_factor then
      .err (.BreaksHealthFactor hf) s (tr ++ [Event.healthCheck user])
    else
      .ok () s (tr ++ [Event.healthCheck user])

/-- `deposit_collateral` (src/src/lib.rs lines 142-184). -/
def deposit_collateral (env : Env) (s : State) (tokenCollateralAddress amountCollateral : Nat) :
    Outcome Unit :=
  if amountCollateral = 0 then .err .NeedsMoreThanZero s []
  else if s.price_feeds tokenCollateralAddress = 0 then .err .NotAllowedToken s []
  else
    match uadd (s.collateral_deposited env.sender tokenCollateralAddress) amountCollateral with
    | none => .fatal "arithmetic overflow" s []
    | some nc =>
      if env.transferFromFails tokenCollateralAddress env.sender env.contractAddr
          amountCollateral then
        .err .TransferFailed (s.setCollateral env.sender tokenCollateralAddress nc)
          [Event.collWrite env.sender tokenCollateralAddress nc,
           Event.logDeposited env.sender tokenCollateralAddress amountCollateral,
           Event.erc20TransferFromCall tokenCollateralAddress env.sender
             env.contractAddr amountCollateral]
      else
        .ok () (s.setCollateral env.sender tokenCollateralAddress nc)
          [Event.collWrite env.sender tokenCollateralAddress nc,
           Event.logDeposited env.sender tokenCollateralAddress amountCollateral,
           Event.erc20TransferFromCall tokenCollateralAddress env.sender
             env.contractAddr amountCollateral]

/-- `_redeem_collateral` (src/src/lib.rs lines 338-370): decrement the `src`
ledger cell (trapping on underflow), emit the redemption event, then ask the
token to transfer to `dst`; a failed transfer is reported as `TransferFailed`. -/
def _redeem_collateral (env : Env) (s : State)
    (tokenCollateralAddress amountCollateral src dst : Nat) : Outcome Unit :=
  match usub (s.collateral_deposited src tokenCollateralAddress) amountCollateral with
  | none => .fatal "arithmetic underflow" s []
  | some nc =>
    if env.transferFails tokenCollateralAddress dst amountCollateral then
      .err .TransferFailed (s.setCollateral src tokenCollateralAddress nc)
        [Event.collWrite src tokenCollateralAddress nc,
         Event.logRedeemed src dst amountCollateral tokenCollateralAddress,
         Event.erc20TransferCall tokenCollateralAddress dst amountCollateral]
    else
      .ok () (s.setCollateral src tokenCollateralAddress nc)
        [Event.collWrite src tokenCollateralAddress nc,
         Event.logRedeemed src dst amountCollateral tokenCollateralAddress,
         Event.erc20TransferCall tokenCollateralAddress dst amountCollateral]

/-- `redeem_collateral` (src/src/lib.rs lines 211-226): zero-amount guard, then
`let _ = self._redeem_collateral(...)` — the result is discarded (only a Rust
panic propagates) — then the caller's health-factor post-check. -/
def redeem_collateral (env : Env) (s : State) (tokenCollateralAddress amountCollateral : Nat) :
    Outcome Unit :=
  if amountCollateral = 0 then .err .NeedsMoreThanZero s []
  else
    match _redeem_collateral env s tokenCollateralAddress amountCollateral
        env.sender env.sender with
    | .fatal m s1 tr => .fatal m s1 tr
    | .ok _ s1 tr => _revert_if_health_factor_is_broken env s1 env.sender tr
    | .err _ s1 tr => _revert_if_health_factor_is_broken env s1 env.sender tr

/-- `mint_dsc` (src/src/lib.rs lines 229-248): zero guard; increment the
caller's debt; health-factor post-check; only then the external pegged-token
mint, whose error is surfaced as a wrapped `DscError`. -/
def mint_dsc (env : Env) (s : State) (amountDscToMint : Nat) : Outcome Unit :=
  if amountDscToMint = 0 then .err .NeedsMoreThanZero s []
  else
    match uadd (s.dsc_minted env.sender) amountDscToMint with
    | none => .fatal "arithmetic overflow" s []
    | some nd =>
      match _revert_if_health_factor_is_broken env (s.setDebt env.sender nd) env.sender
          [Event.debtWrite env.sender nd] with
      | .fatal m s2 tr => .fatal m s2 tr
      | .err e s2 tr => .err e s2 tr
      | .ok _ s2 tr =>
        if env.dscMintFails env.sender amountDscToMint then
          .err .DscError s2 (tr ++ [Event.dscMintCall env.sender amountDscToMint])
        else .ok () s2 (tr ++ [Event.dscMintCall env.sender amountDscToMint])

/-- `burn_dsc` (src/src/lib.rs lines 250-260): zero guard, then only
`self.dsc.burn(amount)` (error propagated); the function body ends with the
placeholder comment `// ... 其他逻辑` and never touches `dsc_minted`. -/
def burn_dsc (env : Env) (s : State) (amount : Nat) : Outcome Unit :=
  if amount = 0 then .err .NeedsMoreThanZero s []
  else
    if env.dscBurnFails amount then .err .DscError s [Event.dscBurnCall amount]
    else .ok () s [Event.dscBurnCall amount]

/-- `_burn_dsc` (src/src/lib.rs lines 317-335): decrement the beneficiary's
debt (trapping on underflow); pull the pegged token from `dscFrom` to the
contract; the source tests `!self.dsc.transfer_from(...).is_err()` and panics
`"TransferFailed"` on that condition — i.e. it panics exactly when the pull
does NOT report an error, mirrored here verbatim; finally
`let _ = self.dsc.burn(amount)` with the result discarded. -/
def _burn_dsc (env : Env) (s : State) (amountDscToBurn onBehalfOf dscFrom : Nat) :
    Outcome Unit :=
  match usub (s.dsc_minted onBehalfOf) amountDscToBurn with
  | none => .fatal "arithmetic underflow" s []
  | some nd =>
    if !(env.dscTransferFromFails dscFrom env.contractAddr amountDscToBurn) then
      .fatal "TransferFailed" (s.setDebt onBehalfOf nd)
        [Event.debtWrite onBehalfOf nd,
         Event.dscTransferFromCall dscFrom env.contractAddr amountDscToBurn]
    else
      .ok () (s.setDebt onBehalfOf nd)
        [Event.debtWrite onBehalfOf nd,
         Event.dscTransferFromCall dscFrom env.contractAddr amountDscToBurn,
         Event.dscBurnCall amountDscToBurn]

/-- Continuation of `liquidate` after the collateral redemption (whose
`Result` the source discards with `let _ =`): burn the covered debt on behalf
of the target, re-read the target's health factor, fail
`HealthFactorNotImproved` unless it strictly increased, then post-check the
liquidator's own health factor. -/
def liquidateAfterRedeem (env : Env) (s : State) (tr : List Event)
    (user debtToCover startingHF : Nat) : Outcome Unit :=
  match _burn_dsc env s debtToCover user env.sender with
  | .fatal m s2 tr2 => .fatal m s2 (tr ++ tr2)
  | .err e s2 tr2 => .err e s2 (tr ++ tr2)
  | .ok _ s2 tr2 =>
    match _health_factor env s2 user with
    | none => .fatal "arithmetic overflow" s2 (tr ++ tr2 ++ [Event.healthCheck user])
    | some endingHF =>
      if endingHF ≤ startingHF then
        .err .HealthFactorNotImproved s2 (tr ++ tr2 ++ [Event.healthCheck user])
      else
        _revert_if_health_factor_is_broken env s2 env.sender
          (tr ++ tr2 ++ [Event.healthCheck user])

/-- `liquidate` (src/src/lib.rs lines 263-297). -/
def liquidate (env : Env) (s : State) (collateral user debtToCover : Nat) :
    Outcome Unit :=
  if debtToCover = 0 then .err .NeedsMoreThanZero s []
  else
    match _health_factor env s user with
    | none => .fatal "arithmetic overflow" s []
    | some startingHF =>
      if s.min_health_factor ≤ startingHF then .err .HealthFactorOk s []
      else
        match get_token_amount_from_usd env s collateral debtToCover with
        | none => .fatal "arithmetic overflow" s []
        | some tokenAmt =>
          match umul tokenAmt s.liquidation_bonus with
          | none => .fatal "arithmetic overflow" s []
          | some tb =>
            match uadd tokenAmt (tb / 100) with
            | none => .fatal "arithmetic overflow" s []
            | some totalCollateralToRedeem =>
              match _redeem_collateral env s collateral totalCollateralToRedeem
                  user env.sender with
              | .fatal m s1 tr1 => .fatal m s1 tr1
              | .ok _ s1 tr1 => liquidateAfterRedeem env s1 tr1 user debtToCover startingHF
              | .err _ s1 tr1 => liquidateAfterRedeem env s1 tr1 user debtToCover startingHF

/-! ### Concrete environments and states used by the witnesses and counterexamples -/

/-- Environment in which every external call succeeds; the single feed at
address `2` answers `2000 * 10^8`; the caller is address `7`. -/
def okEnv : Env :=
  { sender := 7, contractAddr := 99,
    oracle := fun a => if a = 2 then some ((2000 * 10 ^ 8 : Int)) else none,
    transferFromFails := fun _ _ _ _ => false,
    transferFails := fun _ _ _ => false,
    dscMintFails := fun _ _ => false,
    dscTransferFromFails := fun _ _ _ => false,
    dscBurnFails := fun _ => false }

/-- Like `okEnv` but the collateral-token `transfer` out of custody fails. -/
def redeemFailEnv : Env := { okEnv with transferFails := fun _ _ _ => true }

/-- Like `okEnv` but the pegged-token `transfer_from` pull reports failure. -/
def pullFailEnv : Env := { okEnv with dscTransferFromFails := fun _ _ _ => true }

/-- Post-constructor state: token `1` registered with feed `2`, constructor
parameters, empty ledgers. -/
def genesisState : State :=
  { additional_feed_precision := 10 ^ 10, precision := 10 ^ 18,
    liquidation_threshold := 50, liquidation_precision := 100,
    min_health_factor := 10 ^ 18, liquidation_bonus := 10,
    price_feeds := fun t => if t = 1 then 2 else 0,
    collateral_deposited := fun _ _ => 0,
    dsc_minted := fun _ => 0,
    collateral_tokens := [1] }

/-- `genesisState` after user `7` deposited `1 * 10^18` of token `1`. -/
def depositedState : State := (deposit_collateral okEnv genesisState 1 (10 ^ 18)).stateOf

/-- State in which user `7` holds `10` units of token-`1` collateral and `5`
units of debt. -/
def smallState : State :=
  ((genesisState.setCollateral 7 1 10).setDebt 7 5)

/-- Environment for the liquidation scenario: the liquidator is address `9`,
the collateral `transfer` to the liquidator fails (the engine discards that
error), and the pegged-token pull reports failure (which, through the inverted
check in `_burn_dsc`, is the only way `_burn_dsc` completes without a panic). -/
def liqEnv : Env :=
  { sender := 9, contractAddr := 99,
    oracle := fun a => if a = 2 then some ((2000 * 10 ^ 8 : Int)) else none,
    transferFromFails := fun _ _ _ _ => false,
    transferFails := fun _ _ _ => true,
    dscMintFails := fun _ _ => false,
    dscTransferFromFails := fun _ _ _ => true,
    dscBurnFails := fun _ => false }

/-- Liquidation-scenario state: target user `7` holds `1 * 10^18` of token-`1`
collateral (worth `2000 * 10^18`) against `1500 * 10^18` of debt, so their
health factor is `666666666666666666 < 10^18`. -/
def liqState : State :=
  { additional_feed_precision := 10 ^ 10, precision := 10 ^ 18,
    liquidation_threshold := 50, liquidation_precision := 100,
    min_health_factor := 10 ^ 18, liquidation_bonus := 10,
    price_feeds := fun t => if t = 1 then 2 else 0,
    collateral_deposited := fun u t => if u = 7 then (if t = 1 then 10 ^ 18 else 0) else 0,
    dsc_minted := fun u => if u = 7 then 1500 * 10 ^ 18 else 0,
    collateral_tokens := [1] }

/-! ### Helper lemmas -/

theorem uadd_eq_some {a b c : Nat} (h : uadd a b = some c) : c = a + b := by
  unfold uadd at h
  split at h
  · exact (Option.some.injEq _ _ ▸ h).symm
  · cases h

theorem usub_eq_none_of_lt {a b : Nat} (h : a < b) : usub a b = none := by
  unfold usub
  rw [if_neg (Nat.not_le.2 h)]

theorem umul_eq_some_of_lt {a b : Nat} (h : a * b < U256_MOD) : umul a b = some (a * b) := by
  unfold umul
  rw [if_pos h]

theorem udiv_eq_some {a b : Nat} (h : b ≠ 0) : udiv a b = some (a / b) := by
  unfold udiv
  rw [if_neg h]

theorem State.setDebt_same (s : State) (u a : Nat) : (s.setDebt u a).dsc_minted u = a := by
  unfold State.setDebt
  simp

theorem State.setCollateral_same (s : State) (u t a : Nat) :
    (s.setCollateral u t a).collateral_deposited u t = a := by
  unfold State.setCollateral
  simp

theorem State.setCollateral_min (s : State) (u t a : Nat) :
    (s.setCollateral u t a).min_health_factor = s.min_health_factor := rfl

/-- Inversion for a passed health-factor post-check. -/
theorem revert_check_ok_inv {env : Env} {s : State} {user : Nat} {tr : List Event}
    {v : Unit} {s' : State} {tr' : List Event}
    (h : _revert_if_health_factor_is_broken env s user tr = .ok v s' tr') :
    s' = s ∧ tr' = tr ++ [Event.healthCheck user] ∧
      ∃ hf, _health_factor env s user = some hf ∧ s.min_health_factor ≤ hf := by
  unfold _revert_if_health_factor_is_broken at h
  split at h
  · cases h
  next hf heq =>
    split at h
    · cases h
    next hge =>
      cases h
      exact ⟨rfl, rfl, hf, heq, Nat.not_lt.1 hge⟩

/-- Inversion for a failed health-factor post-check. -/
theorem revert_check_err_inv {env : Env} {s : State} {user : Nat} {tr : List Event}
    {e : Err} {s' : State} {tr' : List Event}
    (h : _revert_if_health_factor_is_broken env s user tr = .err e s' tr') :
    s' = s ∧ tr' = tr ++ [Event.healthCheck user] ∧
      ∃ hf, e = .BreaksHealthFactor hf ∧ _health_factor env s user = some hf ∧
        hf < s.min_health_factor := by
  unfold _revert_if_health_factor_is_broken at h
  split at h
  · cases h
  next hf heq =>
    split at h
    next hlt =>
      cases h
      exact ⟨rfl, rfl, hf, rfl, heq, hlt⟩
    · cases h

/-- `_burn_dsc` never returns a recoverable error: it returns `()` or panics. -/
theorem _burn_dsc_ne_err {env : Env} {s : State} {a o d : Nat} {e : Err}
    {s' : State} {tr : List Event} :
    _burn_dsc env s a o d ≠ .err e s' tr := by
  unfold _burn_dsc
  split
  · simp
  · split <;> simp

/-- Whether a trace contains an external pegged-token mint call. -/
def containsDscMintCall : List Event → Bool
  | [] => false
  | .dscMintCall _ _ :: _ => true
  | _ :: es => containsDscMintCall es

/-! ### Claims -/

/-- C1: `get_health_factor` returns `U256::MAX` when the user's minted debt is
zero, and otherwise `((collateralValue * 50) / 100) * 10^18 / totalDebt` with
the constructor's parameters, multiplications before divisions (within the
256-bit domain). -/
theorem get_health_factor_formula (env : Env) (s : State) (user cv : Nat)
    (hp : s.stdParams)
    (hcv : get_account_collateral_value_in_usd env s user = some cv) :
    (s.dsc_minted user = 0 → get_health_factor env s user = some U256_MAX) ∧
    (s.dsc_minted user ≠ 0 → cv * 50 < U256_MOD → cv * 50 / 100 * 10 ^ 18 < U256_MOD →
      get_health_factor env s user = some (cv * 50 / 100 * 10 ^ 18 / s.dsc_minted user)) := by
  obtain ⟨hafp, hprec, hthr, hlprec, hmin, hbon⟩ := hp
  unfold get_health_factor _health_factor
  rw [hcv, Option.some_bind]
  unfold _calculate_health_factor
  refine ⟨fun hz => by rw [if_pos hz], fun hnz hov1 hov2 => ?_⟩
  rw [if_neg hnz, hthr, hlprec, hprec,
    umul_eq_some_of_lt hov1, Option.some_bind,
    udiv_eq_some (by norm_num), Option.some_bind,
    umul_eq_some_of_lt hov2, Option.some_bind,
    udiv_eq_some hnz]

/-- C1 witness: with price `2000 * 10^8`, one deposited token unit and
`1000 * 10^18` of debt, the health factor is exactly `10^18`; with no debt it
is `U256::MAX`. -/
theorem get_health_factor_formula_witness :
    get_health_factor okEnv ((depositedState).setDebt 7 (1000 * 10 ^ 18)) 7
      = some (2000 * 10 ^ 18 * 50 / 100 * 10 ^ 18 / (1000 * 10 ^ 18)) ∧
    get_health_factor okEnv depositedState 7 = some U256_MAX :=
  ⟨(get_health_factor_formula okEnv ((depositedState).setDebt 7 (1000 * 10 ^ 18)) 7
      (2000 * 10 ^ 18) (by decide) (by decide)).2 (by decide) (by decide) (by decide),
   (get_health_factor_formula okEnv depositedState 7 (2000 * 10 ^ 18)
      (by decide) (by decide)).1 (by decide)⟩

/-- C2 counterexample: from the empty post-constructor state, `mint_dsc 5`
fails with `BreaksHealthFactor 0`, yet the program-order trace of the run
contains no external pegged-token mint call — contradicting the claim that on
such a failure the external mint attempt has already occurred. -/
theorem mint_external_mint_not_attempted_cex :
    (mint_dsc okEnv genesisState 5).errOf = some (Err.BreaksHealthFactor 0) ∧
    containsDscMintCall (mint_dsc okEnv genesisState 5).traceOf = false := by
  decide

/-- C2 (amended): in `mint_dsc`, the health-factor check runs after the
debt-ledger increase but before the external mint call: whenever the operation
fails with `BreaksHealthFactor`, the caller's debt has been incremented by the
requested amount and the trace is exactly the debt write followed by the
health check — no external mint was attempted. -/
theorem mint_hf_check_ordering (env : Env) (s : State) (amount hf : Nat)
    (s' : State) (tr : List Event)
    (h : mint_dsc env s amount = .err (.BreaksHealthFactor hf) s' tr) :
    s'.dsc_minted env.sender = s.dsc_minted env.sender + amount ∧
    tr = [Event.debtWrite env.sender (s.dsc_minted env.sender + amount),
          Event.healthCheck env.sender] ∧
    containsDscMintCall tr = false := by
  unfold mint_dsc at h
  split at h
  · simp at h
  split at h
  · simp at h
  next nd huadd =>
    cases hrev : _revert_if_health_factor_is_broken env (s.setDebt env.sender nd)
        env.sender [Event.debtWrite env.sender nd] with
    | fatal m s2 tr2 => simp only [hrev] at h; exact Outcome.noConfusion h
    | ok v2 s2 tr2 => simp only [hrev] at h; split at h <;> simp at h
    | err e2 s2 tr2 =>
      simp only [hrev, Outcome.err.injEq] at h
      obtain ⟨he, hs, htr⟩ := h
      obtain ⟨hs2, htr2, hf', _, _, _⟩ := revert_check_err_inv hrev
      subst hs; subst htr; subst hs2; subst htr2
      have hnd := uadd_eq_some huadd
      subst hnd
      exact ⟨State.setDebt_same s env.sender _, rfl, rfl⟩

/-- C2 witness: the amended ordering statement instantiated on the concrete
failing run of `mint_external_mint_not_attempted_cex`'s input. -/
theorem mint_hf_check_ordering_witness :
    (mint_dsc okEnv genesisState 5).stateOf.dsc_minted okEnv.sender
      = genesisState.dsc_minted okEnv.sender + 5 ∧
    (mint_dsc okEnv genesisState 5).traceOf
      = [Event.debtWrite okEnv.sender (genesisState.dsc_minted okEnv.sender + 5),
         Event.healthCheck okEnv.sender] ∧
    containsDscMintCall (mint_dsc okEnv genesisState 5).traceOf = false :=
  mint_hf_check_ordering okEnv genesisState 5 0 _ _ rfl

/-- C3: `_burn_dsc`'s abort condition is inverted relative to the claim.  With
debt `5` and burn amount `3`: when the pegged-token pull SUCCEEDS the code
panics (with message `"TransferFailed"`), and when the pull REPORTS FAILURE the
code completes normally (the debt still reduced to `2`). -/
theorem burn_pull_panic_condition_inverted :
    (_burn_dsc okEnv smallState 3 7 7).isFatal = true ∧
    (_burn_dsc pullFailEnv smallState 3 7 7).isOk = true ∧
    (_burn_dsc pullFailEnv smallState 3 7 7).stateOf.dsc_minted 7 = 2 := by
  decide

/-- C4: the public `burn_dsc` never touches the `dsc_minted` debt ledger: with
debt `5`, burning `3` succeeds (when the token burn succeeds) yet the debt
remains `5`; the zero-amount case does return `NeedsMoreThanZero`. -/
theorem burn_dsc_leaves_debt_ledger_unchanged :
    (burn_dsc okEnv smallState 3).isOk = true ∧
    (burn_dsc okEnv smallState 3).stateOf.dsc_minted 7 = 5 ∧
    (burn_dsc okEnv smallState 0).errOf = some Err.NeedsMoreThanZero := by
  decide

/-- C5 counterexample: user `7` holds `10` units of collateral and redeems `4`
while the custody-to-caller transfer reports failure; the call nevertheless
returns success (the `TransferFailed` result of `_redeem_collateral` is
discarded by `let _ =`), with the ledger decremented to `6`. -/
theorem redeem_collateral_transfer_failure_cex :
    (redeem_collateral redeemFailEnv smallState 1 4).isOk = true ∧
    (redeem_collateral redeemFailEnv smallState 1 4).stateOf.collateral_deposited 7 1 = 6 ∧
    redeemFailEnv.transferFails 1 redeemFailEnv.sender 4 = true := by
  decide

/-- C5 (amended): when the external transfer out of custody reports failure,
`redeem_collateral` discards the `TransferFailed` error: provided the amount is
non-zero, the decrement does not underflow and the post-redeem health check
passes, the call returns success with the decremented ledger. -/
theorem redeem_collateral_discards_transfer_failure (env : Env) (s : State)
    (token amount nc hf : Nat)
    (hnz : amount ≠ 0)
    (hsub : usub (s.collateral_deposited env.sender token) amount = some nc)
    (hhf : _health_factor env (s.setCollateral env.sender token nc) env.sender = some hf)
    (hok : s.min_health_factor ≤ hf)
    (hfail : env.transferFails token env.sender amount = true) :
    redeem_collateral env s token amount =
      .ok () (s.setCollateral env.sender token nc)
        [Event.collWrite env.sender token nc,
         Event.logRedeemed env.sender env.sender amount token,
         Event.erc20TransferCall token env.sender amount,
         Event.healthCheck env.sender] := by
  unfold redeem_collateral _redeem_collateral
  rw [if_neg hnz, hsub]
  simp only [hfail, if_true]
  unfold _revert_if_health_factor_is_broken
  simp only [hhf, State.setCollateral_min]
  rw [if_neg (Nat.not_lt.2 hok)]
  rfl

/-- C5 witness: the amended statement instantiated on the counterexample's
input (health factor after the redeem is `1200 * 10^18`). -/
theorem redeem_collateral_discards_transfer_failure_witness :
    redeem_collateral redeemFailEnv smallState 1 4 =
      .ok () (smallState.setCollateral 7 1 6)
        [Event.collWrite 7 1 6, Event.logRedeemed 7 7 4 1,
         Event.erc20TransferCall 1 7 4, Event.healthCheck 7] :=
  redeem_collateral_discards_transfer_failure redeemFailEnv smallState 1 4 6
    (1200 * 10 ^ 18) (by decide) (by decide) (by decide) (by decide) (by decide)

/-- C7: ledger amounts live in the non-negative unsigned domain, and a
decrement larger than the stored balance aborts fatally (trapping unsigned
subtraction) before any further effect: `redeem_collateral` of more than the
deposited collateral and a `_burn_dsc` debt reduction larger than the debt both
abort with the state unchanged. -/
theorem ledger_underflow_aborts (env : Env) (s : State) :
    (∀ u t, 0 ≤ s.collateral_deposited u t ∧ 0 ≤ s.dsc_minted u) ∧
    (∀ token amount, s.collateral_deposited env.sender token < amount →
      redeem_collateral env s token amount = .fatal "arithmetic underflow" s []) ∧
    (∀ amount onBehalfOf dscFrom, s.dsc_minted onBehalfOf < amount →
      _burn_dsc env s amount onBehalfOf dscFrom = .fatal "arithmetic underflow" s []) := by
  refine ⟨fun u t => ⟨Nat.zero_le _, Nat.zero_le _⟩, ?_, ?_⟩
  · intro token amount hlt
    have hnz : amount ≠ 0 := by omega
    unfold redeem_collateral _redeem_collateral
    rw [if_neg hnz, usub_eq_none_of_lt hlt]
  · intro amount o d hlt
    unfold _burn_dsc
    rw [usub_eq_none_of_lt hlt]

/-- C7 witness: with `10` units of collateral and `5` of debt, redeeming `11`
and burning `6` both abort fatally. -/
theorem ledger_underflow_aborts_witness :
    redeem_collateral okEnv smallState 1 11 = .fatal "arithmetic underflow" smallState [] ∧
    _burn_dsc okEnv smallState 6 7 7 = .fatal "arithmetic underflow" smallState [] :=
  ⟨(ledger_underflow_aborts okEnv smallState).2.1 1 11 (by decide),
   (ledger_underflow_aborts okEnv smallState).2.2 6 7 7 (by decide)⟩

/-- C8: the spec's concrete scenario.  One registered asset priced
`2000 * 10^8`; after depositing `1 * 10^18`, the account collateral value is
`2000 * 10^18`; minting `1000 * 10^18` succeeds (health factor exactly `10^18`,
and the failure check is strict `<`); minting `1001 * 10^18` fails with
`BreaksHealthFactor`. -/
theorem concrete_scenario_deposit_mint :
    (deposit_collateral okEnv genesisState 1 (10 ^ 18)).isOk = true ∧
    get_account_collateral_value_in_usd okEnv depositedState 7 = some (2000 * 10 ^ 18) ∧
    (mint_dsc okEnv depositedState (1000 * 10 ^ 18)).isOk = true ∧
    get_health_factor okEnv (mint_dsc okEnv depositedState (1000 * 10 ^ 18)).stateOf 7
      = some (10 ^ 18) ∧
    (mint_dsc okEnv depositedState (1001 * 10 ^ 18)).errOf
      = some (Err.BreaksHealthFactor 999000999000999000) := by
  decide

/-- C9: when the oracle read fails, or the answer is negative (and so not
convertible to the unsigned domain), both `get_usd_value` and
`get_token_amount_from_usd` return zero instead of propagating an error. -/
theorem oracle_failure_yields_zero (env : Env) (s : State) (token amount usd : Nat)
    (h : env.oracle (s.price_feeds token) = none ∨
         ∃ p, env.oracle (s.price_feeds token) = some p ∧ p < 0) :
    get_usd_value env s token amount = some 0 ∧
    get_token_amount_from_usd env s token usd = some 0 := by
  unfold get_usd_value get_token_amount_from_usd
  rcases h with h | ⟨p, hp, hneg⟩
  · rw [h]; exact ⟨rfl, rfl⟩
  · rw [hp]; constructor <;> simp [hneg]

/-- C9 witness: token `5` is unregistered in `genesisState` (feed address `0`),
and `okEnv`'s oracle fails on feed `0`; both conversions return zero. -/
theorem oracle_failure_yields_zero_witness :
    get_usd_value okEnv genesisState 5 (10 ^ 18) = some 0 ∧
    get_token_amount_from_usd okEnv genesisState 5 (10 ^ 18) = some 0 :=
  oracle_failure_yields_zero okEnv genesisState 5 (10 ^ 18) (10 ^ 18)
    (Or.inl (by decide))

/-- Inversion: if the post-redeem tail of `liquidate` returns normally, the
target's recomputed health factor strictly exceeds the starting one. -/
theorem liquidateAfterRedeem_ok_inv {env : Env} {s : State} {tr : List Event}
    {user debtToCover startingHF : Nat} {v : Unit} {s' : State} {tr' : List Event}
    (h : liquidateAfterRedeem env s tr user debtToCover startingHF = .ok v s' tr') :
    ∃ ehf, _health_factor env s' user = some ehf ∧ startingHF < ehf := by
  unfold liquidateAfterRedeem at h
  cases hb : _burn_dsc env s debtToCover user env.sender with
  | fatal m s2 tr2 => simp only [hb] at h; exact Outcome.noConfusion h
  | err e2 s2 tr2 => exact absurd hb _burn_dsc_ne_err
  | ok v2 s2 tr2 =>
    simp only [hb] at h
    cases heh : _health_factor env s2 user with
    | none => simp only [heh] at h; exact Outcome.noConfusion h
    | some ehf0 =>
      simp only [heh] at h
      split at h
      · exact Outcome.noConfusion h
      next hgt =>
        obtain ⟨hs2, _, _⟩ := revert_check_ok_inv h
        subst hs2
        exact ⟨ehf0, heh, Nat.not_le.1 hgt⟩

/-- Inversion: if the post-redeem tail of `liquidate` returns an error, it is
`HealthFactorNotImproved` (when the recomputed health factor did not strictly
increase) or the liquidator's own `BreaksHealthFactor` (when it did). -/
theorem liquidateAfterRedeem_err_inv {env : Env} {s : State} {tr : List Event}
    {user debtToCover startingHF : Nat} {e : Err} {s' : State} {tr' : List Event}
    (h : liquidateAfterRedeem env s tr user debtToCover startingHF = .err e s' tr') :
    ∃ ehf, _health_factor env s' user = some ehf ∧
      ((e = Err.HealthFactorNotImproved ∧ ehf ≤ startingHF) ∨
       (∃ hf2, e = Err.BreaksHealthFactor hf2 ∧ startingHF < ehf)) := by
  unfold liquidateAfterRedeem at h
  cases hb : _burn_dsc env s debtToCover user env.sender with
  | fatal m s2 tr2 => simp only [hb] at h; exact Outcome.noConfusion h
  | err e2 s2 tr2 => exact absurd hb _burn_dsc_ne_err
  | ok v2 s2 tr2 =>
    simp only [hb] at h
    cases heh : _health_factor env s2 user with
    | none => simp only [heh] at h; exact Outcome.noConfusion h
    | some ehf0 =>
      simp only [heh] at h
      split at h
      next hle =>
        obtain ⟨he, hs, _⟩ := Outcome.err.inj h
        subst hs
        exact ⟨ehf0, heh, Or.inl ⟨he.symm, hle⟩⟩
      next hgt =>
        obtain ⟨hs2, _, hf2, he2, _, _⟩ := revert_check_err_inv h
        subst hs2
        exact ⟨ehf0, heh, Or.inr ⟨hf2, he2, Nat.not_le.1 hgt⟩⟩

/-- Inversion for a normal return of `liquidate`: the target started below the
minimum and their recomputed health factor strictly increased. -/
theorem liquidate_ok_inv {env : Env} {s : State} {collateral user debtToCover : Nat}
    {v : Unit} {s' : State} {tr : List Event}
    (h : liquidate env s collateral user debtToCover = .ok v s' tr) :
    ∃ shf, _health_factor env s user = some shf ∧ shf < s.min_health_factor ∧
      ∃ ehf, _health_factor env s' user = some ehf ∧ shf < ehf := by
  unfold liquidate at h
  split at h
  · exact Outcome.noConfusion h
  cases hshf : _health_factor env s user with
  | none => simp only [hshf] at h; exact Outcome.noConfusion h
  | some shf =>
    simp only [hshf] at h
    split at h
    · exact Outcome.noConfusion h
    next hge =>
      cases htok : get_token_amount_from_usd env s collateral debtToCover with
      | none => simp only [htok] at h; exact Outcome.noConfusion h
      | some tokenAmt =>
        simp only [htok] at h
        cases hmul : umul tokenAmt s.liquidation_bonus with
        | none => simp only [hmul] at h; exact Outcome.noConfusion h
        | some tb =>
          simp only [hmul] at h
          cases hadd : uadd tokenAmt (tb / 100) with
          | none => simp only [hadd] at h; exact Outcome.noConfusion h
          | some total =>
            simp only [hadd] at h
            cases hred : _redeem_collateral env s collateral total user env.sender with
            | fatal m s1 tr1 => simp only [hred] at h; exact Outcome.noConfusion h
            | ok v1 s1 tr1 =>
              simp only [hred] at h
              exact ⟨shf, rfl, Nat.not_le.1 hge, liquidateAfterRedeem_ok_inv h⟩
            | err e1 s1 tr1 =>
              simp only [hred] at h
              exact ⟨shf, rfl, Nat.not_le.1 hge, liquidateAfterRedeem_ok_inv h⟩

/-- Inversion for an error return of `liquidate`: the error is the zero-amount
guard, the already-healthy guard, `HealthFactorNotImproved`, or a
`BreaksHealthFactor` on the liquidator — never `TransferFailed`. -/
theorem liquidate_err_inv {env : Env} {s : State} {collateral user debtToCover : Nat}
    {e : Err} {s' : State} {tr : List Event}
    (h : liquidate env s collateral user debtToCover = .err e s' tr) :
    (debtToCover = 0 ∧ e = Err.NeedsMoreThanZero ∧ s' = s) ∨
    (∃ shf, _health_factor env s user = some shf ∧ s.min_health_factor ≤ shf ∧
      e = Err.HealthFactorOk) ∨
    (∃ shf, _health_factor env s user = some shf ∧ shf < s.min_health_factor ∧
      ∃ ehf, _health_factor env s' user = some ehf ∧
        ((e = Err.HealthFactorNotImproved ∧ ehf ≤ shf) ∨
         (∃ hf2, e = Err.BreaksHealthFactor hf2 ∧ shf < ehf))) := by
  unfold liquidate at h
  split at h
  next hz =>
    obtain ⟨he, hs, _⟩ := Outcome.err.inj h
    exact Or.inl ⟨hz, he.symm, hs.symm⟩
  cases hshf : _health_factor env s user with
  | none => simp only [hshf] at h; exact Outcome.noConfusion h
  | some shf =>
    simp only [hshf] at h
    split at h
    next hge =>
      obtain ⟨he, _, _⟩ := Outcome.err.inj h
      exact Or.inr (Or.inl ⟨shf, rfl, hge, he.symm⟩)
    next hge =>
      cases htok : get_token_amount_from_usd env s collateral debtToCover with
      | none => simp only [htok] at h; exact Outcome.noConfusion h
      | some tokenAmt =>
        simp only [htok] at h
        cases hmul : umul tokenAmt s.liquidation_bonus with
        | none => simp only [hmul] at h; exact Outcome.noConfusion h
        | some tb =>
          simp only [hmul] at h
          cases hadd : uadd tokenAmt (tb / 100) with
          | none => simp only [hadd] at h; exact Outcome.noConfusion h
          | some total =>
            simp only [hadd] at h
            cases hred : _redeem_collateral env s collateral total user env.sender with
            | fatal m s1 tr1 => simp only [hred] at h; exact Outcome.noConfusion h
            | ok v1 s1 tr1 =>
              simp only [hred] at h
              exact Or.inr (Or.inr ⟨shf, rfl, Nat.not_le.1 hge,
                liquidateAfterRedeem_err_inv h⟩)
            | err e1 s1 tr1 =>
              simp only [hred] at h
              exact Or.inr (Or.inr ⟨shf, rfl, Nat.not_le.1 hge,
                liquidateAfterRedeem_err_inv h⟩)

/-- C6: for a target below the minimum health factor, a successful `liquidate`
strictly increases the target's recomputed health factor; and (for a non-zero
cover amount) an error return is `HealthFactorNotImproved` exactly when the
recomputed health factor did not strictly increase. -/
theorem liquidate_improves_health (env : Env) (s : State)
    (collateral user debtToCover shf : Nat)
    (hhf : _health_factor env s user = some shf)
    (hlow : shf < s.min_health_factor) :
    (∀ r : Outcome Unit, liquidate env s collateral user debtToCover = r →
      r.isOk = true → ∀ ehf, _health_factor env r.stateOf user = some ehf → shf < ehf) ∧
    (∀ r : Outcome Unit, liquidate env s collateral user debtToCover = r →
      debtToCover ≠ 0 → ∀ e, r.errOf = some e →
      ∀ ehf, _health_factor env r.stateOf user = some ehf →
        (e = Err.HealthFactorNotImproved ↔ ehf ≤ shf)) := by
  constructor
  · intro r hr hok ehf hehf
    cases r with
    | err e s' tr => simp [Outcome.isOk] at hok
    | fatal m s' tr => simp [Outcome.isOk] at hok
    | ok v s' tr =>
      obtain ⟨shf0, hshf0, _, ehf0, hehf0, hlt⟩ := liquidate_ok_inv hr
      cases Option.some.inj (hshf0.symm.trans hhf)
      cases Option.some.inj (hehf0.symm.trans hehf)
      exact hlt
  · intro r hr hnz e he ehf hehf
    cases r with
    | ok v s' tr => simp [Outcome.errOf] at he
    | fatal m s' tr => simp [Outcome.errOf] at he
    | err e0 s' tr =>
      have he0 : e0 = e := by simpa [Outcome.errOf] using he
      subst he0
      rcases liquidate_err_inv hr with ⟨hz, _, _⟩ | ⟨shf0, hshf0, hge, _⟩ |
        ⟨shf0, hshf0, _, ehf0, hehf0, hcase⟩
      · exact absurd hz hnz
      · cases Option.some.inj (hshf0.symm.trans hhf)
        exact absurd hge (Nat.not_le.2 hlow)
      · cases Option.some.inj (hshf0.symm.trans hhf)
        cases Option.some.inj (hehf0.symm.trans hehf)
        rcases hcase with ⟨he1, hle⟩ | ⟨hf2, he1, hlt⟩
        · exact ⟨fun _ => hle, fun _ => he1⟩
        · subst he1
          exact ⟨fun hx => Err.noConfusion hx, fun hx => absurd hlt (Nat.not_lt.2 hx)⟩

/-- C6 witness: the liquidation scenario run: the target starts at health
factor `666666666666666666 < 10^18`, `liquidate` succeeds, and the target's
recomputed health factor is `725000000000000000`, strictly greater. -/
theorem liquidate_improves_health_witness :
    (666666666666666666 : Nat) < 725000000000000000 :=
  (liquidate_improves_health liqEnv liqState 1 7 (500 * 10 ^ 18) 666666666666666666
      (by decide) (by decide)).1 (liquidate liqEnv liqState 1 7 (500 * 10 ^ 18)) rfl
    (by decide) 725000000000000000 (by decide)

/-- C10: `liquidate` never surfaces `TransferFailed` — the error of the
internal collateral redemption is discarded — and, concretely, the liquidation
scenario (in which the custody-to-liquidator transfer reports failure) still
returns success. -/
theorem liquidate_never_surfaces_transfer_failed :
    (∀ env s collateral user debtToCover e s' tr,
      liquidate env s collateral user debtToCover = .err e s' tr →
      e ≠ Err.TransferFailed) ∧
    ((liquidate liqEnv liqState 1 7 (500 * 10 ^ 18)).isOk = true ∧
     liqEnv.transferFails 1 liqEnv.sender (275 * 10 ^ 15) = true) := by
  constructor
  · intro env s c u d e s' tr h
    rcases liquidate_err_inv h with ⟨_, he, _⟩ | ⟨shf0, _, _, he⟩ |
      ⟨shf0, _, _, ehf0, _, hcase⟩
    · subst he; exact fun hx => Err.noConfusion hx
    · subst he; exact fun hx => Err.noConfusion hx
    · rcases hcase with ⟨he, _⟩ | ⟨hf2, he, _⟩ <;> subst he <;>
        exact fun hx => Err.noConfusion hx
  · exact ⟨by decide, by decide⟩

/-- C10 witness: the general statement applied to a concrete erroring run (the
zero-amount guard). -/
theorem liquidate_never_surfaces_transfer_failed_witness :
    Err.NeedsMoreThanZero ≠ Err.TransferFailed :=
  liquidate_never_surfaces_transfer_failed.1 okEnv genesisState 1 7 0
    Err.NeedsMoreThanZero genesisState [] rfl

end DSC
